import Mathlib

/-!
Verification of the rate-limit `Route` model and the per-endpoint webhook
request constructors of the Dis-Snek repository.

The embedding follows `dis_snek/api/http/route.py`,
`dis_snek/api/http/http_requests/webhooks.py` and
`dis_snek/client/const.py`.  Python values that can appear as `Route`
keyword parameters (snowflake ids, token strings, `None`, booleans) are
modelled by `PyVal`; Python `f`-string interpolation of such a value is
`pyStr` (in particular `str(None) = "None"`), and Python truthiness is
`PyVal.truthy`.
-/

set_option autoImplicit false

namespace DisSnek

/-- A Python value usable as a `Route` keyword parameter or dict value:
`None`, a string, an integer snowflake, or a boolean. -/
inductive PyVal where
  | none
  | str (s : String)
  | int (n : Int)
  | bool (b : Bool)
deriving DecidableEq, Repr

/-- Python `str()` of a `PyVal`, as used by f-string interpolation and by
`str.format_map` with an empty format spec: `None` renders as `"None"`,
integers in decimal, booleans as `"True"`/`"False"`. -/
def pyStr : PyVal → String
  | .none => "None"
  | .str s => s
  | .int n => toString n
  | .bool b => if b then "True" else "False"

/-- Python truthiness of a `PyVal`: `None` and the empty string (and `0`,
`False`) are falsy. -/
def PyVal.truthy : PyVal → Bool
  | .none => false
  | .str s => s ≠ ""
  | .int n => n ≠ 0
  | .bool b => b

/-- Python truthiness of an `Optional[str]` value: `None` and `""` are
falsy. -/
def optStrTruthy : Option String → Bool
  | Option.none => false
  | some s => s ≠ ""

/-- `d.get(k)` on a Python dict (modelled as an association list with
distinct keys): the stored value when the key is present, else `None`. -/
def dictGet (d : List (String × PyVal)) (k : String) : PyVal :=
  match List.lookup k d with
  | some v => v
  | Option.none => PyVal.none

/-- `__api_version__` from `dis_snek/client/const.py`. -/
def api_version : Nat := 10

/-- `Route.BASE` from `route.py`:
`f"https://discord.com/api/v{__api_version__}"`. -/
def ROUTE_BASE : String := "https://discord.com/api/v" ++ toString api_version

/-- The `Route` object of `route.py` after `__init__` ran: the method,
path template and raw keyword-parameter dict, the four identifier fields
extracted with `parameters.get(...)`, and the `known_bucket` slot
(`None` at construction). -/
structure Route where
  method : String
  path : String
  params : List (String × PyVal)
  channel_id : PyVal
  guild_id : PyVal
  webhook_id : PyVal
  webhook_token : PyVal
  known_bucket : Option String
deriving DecidableEq, Repr

/-- `Route.__init__(method, path, **parameters)`: stores method, path and
the parameter dict, extracts `channel_id`, `guild_id`, `webhook_id`,
`webhook_token` via `parameters.get`, and sets `known_bucket = None`. -/
def Route.make (method path : String) (parameters : List (String × PyVal)) : Route :=
  { method := method
    path := path
    params := parameters
    channel_id := dictGet parameters "channel_id"
    guild_id := dictGet parameters "guild_id"
    webhook_id := dictGet parameters "webhook_id"
    webhook_token := dictGet parameters "webhook_token"
    known_bucket := Option.none }

/-- `Route.endpoint`: `f"{self.method} {self.path}"`. -/
def Route.endpoint (r : Route) : String :=
  r.method ++ " " ++ r.path

/-- `Route.rl_bucket`: the discovered bucket when `known_bucket` is
truthy; otherwise the webhook-form provisional key when `webhook_token`
is truthy, else the plain provisional key.  F-string interpolation of the
identifier fields goes through `pyStr`. -/
def Route.rl_bucket (r : Route) : String :=
  if optStrTruthy r.known_bucket then r.known_bucket.getD ""
  else if r.webhook_token.truthy then
    pyStr r.webhook_id ++ pyStr r.webhook_token ++ ":" ++ pyStr r.channel_id ++ ":"
      ++ pyStr r.guild_id ++ ":" ++ r.endpoint
  else
    pyStr r.channel_id ++ ":" ++ pyStr r.guild_id ++ ":" ++ r.endpoint

/-- `Route.__eq__` restricted to two `Route` operands: compares the
effective bucket keys. -/
def Route.beq (a b : Route) : Bool :=
  a.rl_bucket == b.rl_bucket

/-- `Route.__hash__` is `hash(self.rl_bucket)`: Python's string hash is
kept abstract as a parameter `h`, so `pyHashRoute h r = h r.rl_bucket`. -/
def pyHashRoute {α : Type} (h : String → α) (r : Route) : α :=
  h r.rl_bucket

/-- `Route.__repr__`: `f"<Route {self.endpoint}>"`. -/
def Route.repr (r : Route) : String :=
  "<Route " ++ r.endpoint ++ ">"

/-- `Route.__str__`: `self.endpoint`. -/
def Route.toStr (r : Route) : String :=
  r.endpoint

/-- The dispatcher's post-discovery write `route.known_bucket = bucket`
(the only attribute assignment performed on a `Route` after
construction). -/
def Route.setKnownBucket (r : Route) (b : String) : Route :=
  { r with known_bucket := some b }

/-! ### `urllib.parse.quote` and `str.format_map`, as used by `Route.url` -/

/-- Uppercase hexadecimal digit for `n < 16`. -/
def hexDigit (n : Nat) : Char :=
  if n < 10 then Char.ofNat (48 + n) else Char.ofNat (55 + n)

/-- UTF-8 encoding of one character, as the list of its byte values. -/
def utf8Enc (c : Char) : List Nat :=
  let n := c.toNat
  if n < 0x80 then [n]
  else if n < 0x800 then [0xC0 + n / 0x40, 0x80 + n % 0x40]
  else if n < 0x10000 then
    [0xE0 + n / 0x1000, 0x80 + (n / 0x40) % 0x40, 0x80 + n % 0x40]
  else
    [0xF0 + n / 0x40000, 0x80 + (n / 0x1000) % 0x40, 0x80 + (n / 0x40) % 0x40, 0x80 + n % 0x40]

/-- Bytes `urllib.parse.quote` leaves unescaped with the default
`safe='/'`: ASCII letters, digits, `_ . - ~` and `/`. -/
def isQuoteSafe (b : Nat) : Bool :=
  (65 ≤ b && b ≤ 90) || (97 ≤ b && b ≤ 122) || (48 ≤ b && b ≤ 57)
    || b == 95 || b == 46 || b == 45 || b == 126 || b == 47

/-- One byte of `quote` output: the byte itself when safe, else `%XX`. -/
def quoteByte (b : Nat) : List Char :=
  if isQuoteSafe b then [Char.ofNat b] else ['%', hexDigit (b / 16), hexDigit (b % 16)]

/-- `urllib.parse.quote(s)` with the default `safe='/'`: percent-encode
the UTF-8 bytes of `s`, keeping safe bytes verbatim. -/
def uriquote (s : String) : String :=
  String.mk ((s.data.flatMap utf8Enc).flatMap quoteByte)

mutual

/-- `str.format_map` scanner, outside a replacement field: `{{`/`}}` are
literal braces, `{` opens a field, a lone `}` is an error (`none`). -/
def fmtOut (m : List (String × PyVal)) : List Char → Option (List Char)
  | [] => some []
  | '{' :: '{' :: rest => (fmtOut m rest).map (fun t => '{' :: t)
  | '{' :: rest => fmtIn m [] rest
  | '}' :: '}' :: rest => (fmtOut m rest).map (fun t => '}' :: t)
  | '}' :: _ => Option.none
  | c :: rest => (fmtOut m rest).map (fun t => c :: t)

/-- `str.format_map` scanner, inside `{...}`: accumulate the field name
(reversed in `acc`) until `}`, then substitute `str()` of the mapped
value; a missing key (Python `KeyError`) or unclosed field is `none`. -/
def fmtIn (m : List (String × PyVal)) (acc : List Char) : List Char → Option (List Char)
  | [] => Option.none
  | '}' :: rest =>
    match List.lookup (String.mk acc.reverse) m with
    | some v => (fmtOut m rest).map (fun t => (pyStr v).data ++ t)
    | Option.none => Option.none
  | c :: rest => fmtIn m (c :: acc) rest

end

/-- The dict comprehension inside `Route.url`:
`{k: _uriquote(v) if isinstance(v, str) else v for k, v in self.params.items()}`. -/
def urlParams (ps : List (String × PyVal)) : List (String × PyVal) :=
  ps.map (fun kv =>
    (kv.1, match kv.2 with
           | PyVal.str s => PyVal.str (uriquote s)
           | v => v))

/-- `Route.url`: `f"{self.BASE}{self.path}".format_map({...})`.  Python's
`format_map` raises on a malformed template or missing key; that is the
`none` case. -/
def Route.url (r : Route) : Option String :=
  (fmtOut (urlParams r.params) (ROUTE_BASE ++ r.path).data).map String.mk

/-! ### State-passing forms of the read-only `Route` methods

Each body in `route.py` is a single expression with no attribute
assignment, so its translation pairs the result with the unchanged
`self`. -/

/-- `self.rl_bucket` as a call on `self`. -/
def Route.rl_bucket_run (r : Route) : String × Route := (r.rl_bucket, r)

/-- `self.endpoint` as a call on `self`. -/
def Route.endpoint_run (r : Route) : String × Route := (r.endpoint, r)

/-- `self.url` as a call on `self`. -/
def Route.url_run (r : Route) : Option String × Route := (r.url, r)

/-- `self.__eq__(other)` as a call on `self`. -/
def Route.beq_run (r other : Route) : Bool × Route := (r.beq other, r)

/-- `self.__hash__()` as a call on `self`, with the string hash `h`
abstract. -/
def Route.hash_run {α : Type} (h : String → α) (r : Route) : α × Route := (pyHashRoute h r, r)

/-- `self.__repr__()` as a call on `self`. -/
def Route.repr_run (r : Route) : String × Route := (r.repr, r)

/-- `self.__str__()` as a call on `self`. -/
def Route.str_run (r : Route) : String × Route := (r.toStr, r)

/-! ### The per-endpoint webhook request functions
(`http_requests/webhooks.py`)

Each function is modelled by the list of calls it makes to the shared
`self.request` operation, each call carrying the constructed `Route`,
the `data=` payload and the `params=` query dict. -/

/-- One call to the shared
`self.request(route, data=..., params=..., reason=...)` operation.  The
`reason` slot is `none` when the keyword is not passed at the call
site. -/
structure RequestCall where
  route : Route
  data : Option (List (String × PyVal))
  params : Option (List (String × PyVal))
  reason : Option PyVal := Option.none
deriving DecidableEq, Repr

/-- Modelled from the spec: `dict_filter_none` lives in
`dis_snek/client/utils/serializer.py`, which is not under `src/`; per its
name and its use at the `execute_webhook` call site it drops the dict
entries whose value is `None`. -/
def dict_filter_none (d : List (String × PyVal)) : List (String × PyVal) :=
  d.filter (fun kv => kv.2 ≠ PyVal.none)

/-- The endpoint string shared by `get_webhook`, `modify_webhook` and
`delete_webhook`:
`f"/webhooks/{webhook_id}{f'/{webhook_token}' if webhook_token else ''}"`. -/
def webhookEndpoint (webhook_id webhook_token : PyVal) : String :=
  "/webhooks/" ++ pyStr webhook_id
    ++ (if webhook_token.truthy then "/" ++ pyStr webhook_token else "")

/-- `WebhookRequests.create_webhook`. -/
def create_webhook (channel_id : PyVal) (name : PyVal) (avatar : PyVal) : List RequestCall :=
  [{ route := Route.make "POST" ("/channels/" ++ pyStr channel_id ++ "/webhooks") []
     data := some [("name", name), ("avatar", avatar)]
     params := Option.none }]

/-- `WebhookRequests.get_channel_webhooks`. -/
def get_channel_webhooks (channel_id : PyVal) : List RequestCall :=
  [{ route := Route.make "GET" ("/channels/" ++ pyStr channel_id ++ "/webhooks") []
     data := Option.none
     params := Option.none }]

/-- `WebhookRequests.get_guild_webhooks`. -/
def get_guild_webhooks (guild_id : PyVal) : List RequestCall :=
  [{ route := Route.make "GET" ("/guilds/" ++ pyStr guild_id ++ "/webhooks") []
     data := Option.none
     params := Option.none }]

/-- `WebhookRequests.get_webhook`. -/
def get_webhook (webhook_id webhook_token : PyVal) : List RequestCall :=
  [{ route := Route.make "GET" (webhookEndpoint webhook_id webhook_token) []
     data := Option.none
     params := Option.none }]

/-- `WebhookRequests.modify_webhook`. -/
def modify_webhook (webhook_id : PyVal) (name avatar channel_id : PyVal)
    (webhook_token : PyVal) : List RequestCall :=
  [{ route := Route.make "PATCH" (webhookEndpoint webhook_id webhook_token) []
     data := some [("name", name), ("avatar", avatar), ("channel_id", channel_id)]
     params := Option.none }]

/-- `WebhookRequests.delete_webhook`. -/
def delete_webhook (webhook_id webhook_token : PyVal) : List RequestCall :=
  [{ route := Route.make "DELETE" (webhookEndpoint webhook_id webhook_token) []
     data := Option.none
     params := Option.none }]

/-- `WebhookRequests.execute_webhook`. -/
def execute_webhook (webhook_id webhook_token : PyVal) (payload : List (String × PyVal))
    (wait : Bool) (thread_id : PyVal) : List RequestCall :=
  [{ route := Route.make "POST" ("/webhooks/" ++ pyStr webhook_id ++ "/" ++ pyStr webhook_token) []
     params := some (dict_filter_none
       [("wait", PyVal.str (if wait then "true" else "false")), ("thread_id", thread_id)])
     data := some payload }]

/-- `WebhookRequests.get_webhook_message`. -/
def get_webhook_message (webhook_id webhook_token message_id : PyVal) : List RequestCall :=
  [{ route := Route.make "GET" ("/webhooks/" ++ pyStr webhook_id ++ "/" ++ pyStr webhook_token
       ++ "/messages/" ++ pyStr message_id) []
     data := Option.none
     params := Option.none }]

/-- `WebhookRequests.edit_webhook_message`. -/
def edit_webhook_message (webhook_id webhook_token message_id : PyVal)
    (payload : List (String × PyVal)) : List RequestCall :=
  [{ route := Route.make "PATCH" ("/webhooks/" ++ pyStr webhook_id ++ "/" ++ pyStr webhook_token
       ++ "/messages/" ++ pyStr message_id) []
     data := some payload
     params := Option.none }]

/-- `WebhookRequests.delete_webhook_message`. -/
def delete_webhook_message (webhook_id webhook_token message_id : PyVal) : List RequestCall :=
  [{ route := Route.make "DELETE" ("/webhooks/" ++ pyStr webhook_id ++ "/" ++ pyStr webhook_token
       ++ "/messages/" ++ pyStr message_id) []
     data := Option.none
     params := Option.none }]

/-! ### The per-endpoint user request functions (`http_requests/users.py`) -/

/-- `UserRequests.get_user`. -/
def get_user (user_id : PyVal) : List RequestCall :=
  [{ route := Route.make "GET" ("/users/" ++ pyStr user_id) []
     data := Option.none
     params := Option.none }]

/-- `UserRequests.get_current_user`: delegates to `get_user("@me")`. -/
def get_current_user : List RequestCall :=
  get_user (PyVal.str "@me")

/-- `UserRequests.modify_client_user`. -/
def modify_client_user (payload : List (String × PyVal)) : List RequestCall :=
  [{ route := Route.make "PATCH" "/users/@me" []
     data := some payload
     params := Option.none }]

/-- `UserRequests.get_user_guilds`. -/
def get_user_guilds : List RequestCall :=
  [{ route := Route.make "GET" "/users/@me/guilds" []
     data := Option.none
     params := Option.none }]

/-- `UserRequests.leave_guild`. -/
def leave_guild (guild_id : PyVal) : List RequestCall :=
  [{ route := Route.make "DELETE" ("/users/@me/guilds/" ++ pyStr guild_id) []
     data := Option.none
     params := Option.none }]

/-- `UserRequests.create_dm`. -/
def create_dm (recipient_id : PyVal) : List RequestCall :=
  [{ route := Route.make "POST" "/users/@me/channels" []
     data := some [("recipient_id", recipient_id)]
     params := Option.none }]

/-- `UserRequests.create_group_dm`. -/
def create_group_dm (payload : List (String × PyVal)) : List RequestCall :=
  [{ route := Route.make "POST" "/users/@me/channels" []
     data := some payload
     params := Option.none }]

/-- `UserRequests.get_user_connections`. -/
def get_user_connections : List RequestCall :=
  [{ route := Route.make "GET" "/users/@me/connections" []
     data := Option.none
     params := Option.none }]

/-- `UserRequests.group_dm_add_recipient`. -/
def group_dm_add_recipient (channel_id user_id access_token nick : PyVal) : List RequestCall :=
  [{ route := Route.make "PUT" ("/channels/" ++ pyStr channel_id ++ "/recipients/"
       ++ pyStr user_id) []
     data := some [("access_token", access_token), ("nick", nick)]
     params := Option.none }]

/-- `UserRequests.group_dm_remove_recipient`. -/
def group_dm_remove_recipient (channel_id user_id : PyVal) : List RequestCall :=
  [{ route := Route.make "DELETE" ("/channels/" ++ pyStr channel_id ++ "/recipients/"
       ++ pyStr user_id) []
     data := Option.none
     params := Option.none }]

/-- `UserRequests.modify_current_user_nick`. -/
def modify_current_user_nick (guild_id nickname : PyVal) : List RequestCall :=
  [{ route := Route.make "PATCH" ("/guilds/" ++ pyStr guild_id ++ "/members/@me/nick") []
     data := some [("nick", nickname)]
     params := Option.none }]

/-! ### The per-endpoint sticker request functions
(`http_requests/stickers.py`) -/

/-- `StickerRequests.get_sticker`. -/
def get_sticker (sticker_id : PyVal) : List RequestCall :=
  [{ route := Route.make "GET" ("/stickers/" ++ pyStr sticker_id) []
     data := Option.none
     params := Option.none }]

/-- `StickerRequests.list_nitro_sticker_packs`. -/
def list_nitro_sticker_packs : List RequestCall :=
  [{ route := Route.make "GET" "/sticker-packs" []
     data := Option.none
     params := Option.none }]

/-- `StickerRequests.list_guild_stickers`. -/
def list_guild_stickers (guild_id : PyVal) : List RequestCall :=
  [{ route := Route.make "GET" ("/guilds/" ++ pyStr guild_id ++ "/stickers") []
     data := Option.none
     params := Option.none }]

/-- `StickerRequests.get_guild_sticker`. -/
def get_guild_sticker (guild_id sticker_id : PyVal) : List RequestCall :=
  [{ route := Route.make "GET" ("/guilds/" ++ pyStr guild_id ++ "/stickers/"
       ++ pyStr sticker_id) []
     data := Option.none
     params := Option.none }]

/-- `StickerRequests.create_guild_sticker` (the source path really says
`/guild/...`, without the plural). -/
def create_guild_sticker (payload : List (String × PyVal)) (guild_id : PyVal)
    (reason : PyVal) : List RequestCall :=
  [{ route := Route.make "POST" ("/guild/" ++ pyStr guild_id ++ "/stickers") []
     data := some payload
     params := Option.none
     reason := some reason }]

/-- `StickerRequests.modify_guild_sticker`. -/
def modify_guild_sticker (payload : List (String × PyVal)) (guild_id sticker_id : PyVal)
    (reason : PyVal) : List RequestCall :=
  [{ route := Route.make "PATCH" ("/guild/" ++ pyStr guild_id ++ "/stickers/"
       ++ pyStr sticker_id) []
     data := some payload
     params := Option.none
     reason := some reason }]

/-- `StickerRequests.delete_guild_sticker`. -/
def delete_guild_sticker (guild_id sticker_id : PyVal) (reason : PyVal) : List RequestCall :=
  [{ route := Route.make "DELETE" ("/guild/" ++ pyStr guild_id ++ "/stickers/"
       ++ pyStr sticker_id) []
     data := Option.none
     params := Option.none
     reason := some reason }]

/-! ### The dispatcher's outcome classification and retry loop

The dispatcher itself (`client.py` / the rate limiter) is not among the
source files; its behaviour is modelled from the specification. -/

/-- Modelled from the spec: the dispatcher's classification of a response
status (spec 4.4 / 7) — 2xx success, 429 throttled, other 4xx terminal
client error, 5xx retryable server error, anything else a protocol
violation (surfaced, never retried). -/
inductive RespClass where
  | success
  | throttled
  | clientError
  | serverError
  | protocolViolation
deriving DecidableEq, Repr

/-- Modelled from the spec: status classification used at step 5 of the
dispatcher lifecycle. -/
def classifyStatus (s : Nat) : RespClass :=
  if 200 ≤ s ∧ s < 300 then RespClass.success
  else if s = 429 then RespClass.throttled
  else if 400 ≤ s ∧ s < 500 then RespClass.clientError
  else if 500 ≤ s ∧ s < 600 then RespClass.serverError
  else RespClass.protocolViolation

/-- One transport response: status, decoded remote error code, body. -/
structure Response where
  status : Nat
  errorCode : Int
  body : String

/-- Modelled from the spec: what a call surfaces to its caller. -/
inductive DispatchResult where
  | ok (body : String)
  | remoteRejected (status : Nat) (code : Int)
  | protocolViolation (status : Nat)
  | retriesExhausted (status : Nat)
deriving DecidableEq, Repr

/-- Modelled from the spec: the dispatcher retry loop (spec 4.4).  The
`oracle` gives the response of the `idx`-th network exchange; the result
counts the exchanges performed and gives the surfaced outcome.  2xx
returns the body; a 4xx other than 429 is terminal with the decoded
error code; throttling/5xx retry while attempts remain. -/
def dispatchLoop (oracle : Nat → Response) : Nat → Nat → Nat × DispatchResult
  | retriesLeft, idx =>
    let resp := oracle idx
    match classifyStatus resp.status with
    | RespClass.success => (idx + 1, DispatchResult.ok resp.body)
    | RespClass.clientError => (idx + 1, DispatchResult.remoteRejected resp.status resp.errorCode)
    | RespClass.protocolViolation => (idx + 1, DispatchResult.protocolViolation resp.status)
    | _ =>
      match retriesLeft with
      | 0 => (idx + 1, DispatchResult.retriesExhausted resp.status)
      | n + 1 => dispatchLoop oracle n (idx + 1)

/-- Modelled from the spec: run one logical call with a retry budget,
returning how many exchanges happened and the surfaced outcome. -/
def dispatch (maxRetries : Nat) (oracle : Nat → Response) : Nat × DispatchResult :=
  dispatchLoop oracle maxRetries 0

/-! ### Spec-side formulations, for comparison against the code -/

/-- Rendering of an identifier according to claim C1's words: a missing
identifier becomes the empty string (instead of Python's `"None"`). -/
def pyStrEmptyIfNone : PyVal → String
  | PyVal.none => ""
  | v => pyStr v

/-- The provisional-key formula exactly as claim C1 states it, with each
missing identifier rendered as the empty string. -/
def claimC1Key (wid wtok cid gid : PyVal) (method path : String) : String :=
  if wtok.truthy then
    pyStrEmptyIfNone wid ++ pyStrEmptyIfNone wtok ++ ":" ++ pyStrEmptyIfNone cid ++ ":"
      ++ pyStrEmptyIfNone gid ++ ":" ++ method ++ " " ++ path
  else
    pyStrEmptyIfNone cid ++ ":" ++ pyStrEmptyIfNone gid ++ ":" ++ method ++ " " ++ path

/-- The provisional-key formula with Python's actual rendering: a missing
identifier interpolates as `"None"`. -/
def specProvisionalKey (wid wtok cid gid : PyVal) (method path : String) : String :=
  if wtok.truthy then
    pyStr wid ++ pyStr wtok ++ ":" ++ pyStr cid ++ ":" ++ pyStr gid ++ ":" ++ method ++ " " ++ path
  else
    pyStr cid ++ ":" ++ pyStr gid ++ ":" ++ method ++ " " ++ path

/-- The shape claim C4 asserts of every route built by the webhook
request functions: all four identifier fields are `None` (ids only live
in the path text), and the provisional bucket key takes the non-webhook
form. -/
def noKwargIds (r : Route) : Prop :=
  r.channel_id = PyVal.none ∧ r.guild_id = PyVal.none ∧ r.webhook_id = PyVal.none
    ∧ r.webhook_token = PyVal.none ∧ r.known_bucket = Option.none
    ∧ r.rl_bucket = pyStr PyVal.none ++ ":" ++ pyStr PyVal.none ++ ":" ++ r.endpoint

/-! ## Theorems -/

/-- Helper: `fmtOut` passes a non-brace character through unchanged. -/
theorem fmtOut_cons (m : List (String × PyVal)) (c : Char) (l : List Char)
    (h1 : c ≠ '{') (h2 : c ≠ '}') :
    fmtOut m (c :: l) = (fmtOut m l).map (fun t => c :: t) := by
  rw [fmtOut.eq_def]
  split <;> simp_all

/-- Helper: a brace-free prefix of a format template is emitted verbatim
in front of the formatted remainder. -/
theorem fmtOut_append_bracefree (m : List (String × PyVal)) (s l : List Char)
    (hs : ∀ c ∈ s, c ≠ '{' ∧ c ≠ '}') :
    fmtOut m (s ++ l) = (fmtOut m l).map (fun t => s ++ t) := by
  induction s with
  | nil => cases h : fmtOut m l <;> simp [h]
  | cons c s ih =>
    have hc := hs c (by simp)
    rw [List.cons_append, fmtOut_cons m c _ hc.1 hc.2,
      ih (fun d hd => hs d (by simp [hd]))]
    cases h : fmtOut m l <;> simp [h]

/-- Helper: the `Route.url` dict comprehension percent-encodes exactly
the string-valued parameters, keyed as before. -/
theorem lookup_urlParams (ps : List (String × PyVal)) (k s : String)
    (h : List.lookup k ps = some (PyVal.str s)) :
    List.lookup k (urlParams ps) = some (PyVal.str (uriquote s)) := by
  induction ps with
  | nil => simp [List.lookup] at h
  | cons kv t ih =>
    obtain ⟨k', v⟩ := kv
    cases hk : (k == k') with
    | true =>
      rw [List.lookup, hk] at h
      have hv : v = PyVal.str s := by injection h
      simp [urlParams, List.lookup, hk, hv]
    | false =>
      rw [List.lookup, hk] at h
      have ht := ih h
      simp only [urlParams, List.map_cons] at ht ⊢
      rw [List.lookup, hk]
      exact ht

/-- Claim C1, counterexample: the claim renders a missing identifier as
the empty string, but Python f-strings render `None` as `"None"`.  For
`Route("GET", "/gateway")` the claimed provisional key is
`"::GET /gateway"` while `rl_bucket` is `"None:None:GET /gateway"`. -/
theorem missing_ids_render_as_None_not_empty :
    (Route.make "GET" "/gateway" []).rl_bucket = "None:None:GET /gateway"
      ∧ (Route.make "GET" "/gateway" []).rl_bucket
          ≠ claimC1Key PyVal.none PyVal.none PyVal.none PyVal.none "GET" "/gateway"
      ∧ claimC1Key PyVal.none PyVal.none PyVal.none PyVal.none "GET" "/gateway"
          = "::GET /gateway" := by
  decide

/-- Claim C1 (amended): a freshly constructed Route's effective bucket
key is the provisional key `{webhook_id}{webhook_token}:{channel_id}:{guild_id}:{method} {path}`
when a webhook token is truthy, else `{channel_id}:{guild_id}:{method} {path}`,
with each missing identifier rendered as `"None"`; once a non-empty
discovered bucket is set, the effective key is that bucket id;
and two Routes with identical method, path template and identifiers
produce equal bucket keys. -/
theorem effective_bucket_key_formula (m p : String) (ps ps' : List (String × PyVal)) (b : String)
    (hcid : dictGet ps "channel_id" = dictGet ps' "channel_id")
    (hgid : dictGet ps "guild_id" = dictGet ps' "guild_id")
    (hwid : dictGet ps "webhook_id" = dictGet ps' "webhook_id")
    (hwtok : dictGet ps "webhook_token" = dictGet ps' "webhook_token")
    (hb : b ≠ "") :
    (Route.make m p ps).rl_bucket
        = specProvisionalKey (dictGet ps "webhook_id") (dictGet ps "webhook_token")
            (dictGet ps "channel_id") (dictGet ps "guild_id") m p
      ∧ ((Route.make m p ps).setKnownBucket b).rl_bucket = b
      ∧ (Route.make m p ps).rl_bucket = (Route.make m p ps').rl_bucket := by
  refine ⟨?_, ?_, ?_⟩
  · simp only [Route.make, Route.rl_bucket, Route.endpoint, specProvisionalKey, optStrTruthy]
    split
    · simp_all
    · split <;> simp [String.append_assoc]
  · simp [Route.setKnownBucket, Route.make, Route.rl_bucket, optStrTruthy, hb]
  · simp [Route.make, Route.rl_bucket, Route.endpoint, hcid, hgid, hwid, hwtok]

/-- Witness for C1's amended theorem at a concrete channel route. -/
theorem effective_bucket_key_formula_instance :
    (Route.make "GET" "/channels/{channel_id}" [("channel_id", PyVal.int 1)]).rl_bucket
        = specProvisionalKey (dictGet [("channel_id", PyVal.int 1)] "webhook_id")
            (dictGet [("channel_id", PyVal.int 1)] "webhook_token")
            (dictGet [("channel_id", PyVal.int 1)] "channel_id")
            (dictGet [("channel_id", PyVal.int 1)] "guild_id") "GET" "/channels/{channel_id}"
      ∧ ((Route.make "GET" "/channels/{channel_id}"
            [("channel_id", PyVal.int 1)]).setKnownBucket "B").rl_bucket = "B"
      ∧ (Route.make "GET" "/channels/{channel_id}" [("channel_id", PyVal.int 1)]).rl_bucket
          = (Route.make "GET" "/channels/{channel_id}"
              [("channel_id", PyVal.int 1), ("extra", PyVal.int 2)]).rl_bucket :=
  effective_bucket_key_formula "GET" "/channels/{channel_id}" [("channel_id", PyVal.int 1)]
    [("channel_id", PyVal.int 1), ("extra", PyVal.int 2)] "B"
    (by decide) (by decide) (by decide) (by decide) (by decide)

/-- Claim C2: two Routes compare equal iff their effective bucket keys
are equal strings; a Route's hash is the hash of its effective key (for
any string-hash function `h`); hence key-equal Routes have equal
hashes. -/
theorem route_eq_hash_agree_on_bucket_key {α : Type} (r1 r2 : Route) (h : String → α) :
    (Route.beq r1 r2 = true ↔ r1.rl_bucket = r2.rl_bucket)
      ∧ pyHashRoute h r1 = h r1.rl_bucket
      ∧ (Route.beq r1 r2 = true → pyHashRoute h r1 = pyHashRoute h r2) := by
  refine ⟨by simp [Route.beq], rfl, ?_⟩
  intro he
  have hk : r1.rl_bucket = r2.rl_bucket := by simpa [Route.beq] using he
  simp [pyHashRoute, hk]

/-- Witness for C2 at two concrete key-equal Routes. -/
theorem route_eq_hash_agree_instance :
    Route.beq (Route.make "GET" "/channels/{channel_id}" [("channel_id", PyVal.int 7)])
        (Route.make "GET" "/channels/{channel_id}"
          [("channel_id", PyVal.int 7), ("guild_id", PyVal.none)]) = true
      ∧ pyHashRoute (fun s => s)
          (Route.make "GET" "/channels/{channel_id}" [("channel_id", PyVal.int 7)])
        = pyHashRoute (fun s => s)
          (Route.make "GET" "/channels/{channel_id}"
            [("channel_id", PyVal.int 7), ("guild_id", PyVal.none)]) :=
  ⟨by decide,
   (route_eq_hash_agree_on_bucket_key
      (Route.make "GET" "/channels/{channel_id}" [("channel_id", PyVal.int 7)])
      (Route.make "GET" "/channels/{channel_id}"
        [("channel_id", PyVal.int 7), ("guild_id", PyVal.none)])
      (fun s => s)).2.2 (by decide)⟩

/-- Claim C4: every route built by the seven webhook request functions
has all four identifier fields `None` (the ids are interpolated into the
path text instead), so the provisional key always takes the non-webhook
form — the webhook-token branch of `rl_bucket` is never exercised by
these constructors. -/
theorem webhook_constructors_embed_ids_in_path
    (wid wtok mid nm avatar cid : PyVal) (payload : List (String × PyVal))
    (wait : Bool) (tid : PyVal) :
    (∃ c, execute_webhook wid wtok payload wait tid = [c] ∧ noKwargIds c.route)
      ∧ (∃ c, get_webhook wid wtok = [c] ∧ noKwargIds c.route)
      ∧ (∃ c, modify_webhook wid nm avatar cid wtok = [c] ∧ noKwargIds c.route)
      ∧ (∃ c, delete_webhook wid wtok = [c] ∧ noKwargIds c.route)
      ∧ (∃ c, get_webhook_message wid wtok mid = [c] ∧ noKwargIds c.route)
      ∧ (∃ c, edit_webhook_message wid wtok mid payload = [c] ∧ noKwargIds c.route)
      ∧ (∃ c, delete_webhook_message wid wtok mid = [c] ∧ noKwargIds c.route) := by
  refine ⟨⟨_, rfl, ?_⟩, ⟨_, rfl, ?_⟩, ⟨_, rfl, ?_⟩, ⟨_, rfl, ?_⟩, ⟨_, rfl, ?_⟩,
    ⟨_, rfl, ?_⟩, ⟨_, rfl, ?_⟩⟩ <;>
    exact ⟨rfl, rfl, rfl, rfl, rfl, rfl⟩

/-- Claim C5: `url()` is the fixed base URL concatenated with the path
template with placeholders substituted by the keyword parameters,
string-valued parameters percent-encoded; the call leaves the Route
unchanged. -/
theorem url_is_base_plus_substituted_path (r : Route) (k s : String)
    (hks : List.lookup k r.params = some (PyVal.str s)) :
    r.url = (fmtOut (urlParams r.params) r.path.data).map (fun t => ROUTE_BASE ++ String.mk t)
      ∧ List.lookup k (urlParams r.params) = some (PyVal.str (uriquote s))
      ∧ (Route.url_run r).2 = r := by
  refine ⟨?_, lookup_urlParams r.params k s hks, rfl⟩
  have hbase : ∀ c ∈ ROUTE_BASE.data, c ≠ '{' ∧ c ≠ '}' := by decide
  unfold Route.url
  rw [String.data_append, fmtOut_append_bracefree _ _ _ hbase]
  cases fmtOut (urlParams r.params) r.path.data
  · rfl
  · exact congrArg some rfl

/-- Witness for C5 at a concrete channel route with a string parameter
containing a space. -/
theorem url_substitution_instance :
    (Route.make "GET" "/channels/{channel_id}" [("channel_id", PyVal.str "a b")]).url
        = (fmtOut (urlParams (Route.make "GET" "/channels/{channel_id}"
              [("channel_id", PyVal.str "a b")]).params)
            (Route.make "GET" "/channels/{channel_id}"
              [("channel_id", PyVal.str "a b")]).path.data).map
            (fun t => ROUTE_BASE ++ String.mk t)
      ∧ List.lookup "channel_id" (urlParams (Route.make "GET" "/channels/{channel_id}"
            [("channel_id", PyVal.str "a b")]).params)
          = some (PyVal.str (uriquote "a b"))
      ∧ (Route.url_run (Route.make "GET" "/channels/{channel_id}"
            [("channel_id", PyVal.str "a b")])).2
          = Route.make "GET" "/channels/{channel_id}" [("channel_id", PyVal.str "a b")] :=
  url_is_base_plus_substituted_path
    (Route.make "GET" "/channels/{channel_id}" [("channel_id", PyVal.str "a b")])
    "channel_id" "a b" (by decide)

/-- Claim C6: the dispatcher's `known_bucket` write touches no other
field; every read-only `Route` operation returns `self` unchanged; and
the operations that do not read `known_bucket` (`endpoint`, `url`,
`repr`, `str`) are unaffected by the discovery write. -/
theorem route_ops_frame (r other : Route) (b : String) {α : Type} (h : String → α) :
    ((r.setKnownBucket b).method = r.method
      ∧ (r.setKnownBucket b).path = r.path
      ∧ (r.setKnownBucket b).params = r.params
      ∧ (r.setKnownBucket b).channel_id = r.channel_id
      ∧ (r.setKnownBucket b).guild_id = r.guild_id
      ∧ (r.setKnownBucket b).webhook_id = r.webhook_id
      ∧ (r.setKnownBucket b).webhook_token = r.webhook_token
      ∧ (r.setKnownBucket b).known_bucket = some b)
    ∧ ((Route.rl_bucket_run r).2 = r ∧ (Route.endpoint_run r).2 = r ∧ (Route.url_run r).2 = r
      ∧ (Route.beq_run r other).2 = r ∧ (Route.hash_run h r).2 = r
      ∧ (Route.repr_run r).2 = r ∧ (Route.str_run r).2 = r)
    ∧ ((r.setKnownBucket b).endpoint = r.endpoint ∧ (r.setKnownBucket b).url = r.url
      ∧ (r.setKnownBucket b).repr = r.repr ∧ (r.setKnownBucket b).toStr = r.toStr) :=
  ⟨⟨rfl, rfl, rfl, rfl, rfl, rfl, rfl, rfl⟩, ⟨rfl, rfl, rfl, rfl, rfl, rfl, rfl⟩,
    ⟨rfl, rfl, rfl, rfl⟩⟩

/-- Claim C7: when the first response is a 4xx other than 429, the
dispatcher performs exactly one exchange and surfaces a remote-rejected
error carrying the decoded error code, for every retry budget. -/
theorem client_error_single_exchange (maxRetries : Nat) (oracle : Nat → Response)
    (h400 : 400 ≤ (oracle 0).status) (h500 : (oracle 0).status < 500)
    (h429 : (oracle 0).status ≠ 429) :
    dispatch maxRetries oracle
      = (1, DispatchResult.remoteRejected (oracle 0).status (oracle 0).errorCode) := by
  have hclass : classifyStatus (oracle 0).status = RespClass.clientError := by
    unfold classifyStatus
    have h1 : ¬(200 ≤ (oracle 0).status ∧ (oracle 0).status < 300) := by omega
    rw [if_neg h1, if_neg h429, if_pos ⟨h400, h500⟩]
  unfold dispatch
  rw [dispatchLoop.eq_def]
  simp [hclass]

/-- Witness for C7: a simulated 403 yields exactly one exchange and a
surfaced rejection with its decoded code. -/
theorem client_error_single_exchange_403 :
    dispatch 3 (fun _ => { status := 403, errorCode := 50001, body := "" })
      = (1, DispatchResult.remoteRejected 403 50001) :=
  client_error_single_exchange 3 (fun _ => { status := 403, errorCode := 50001, body := "" })
    (by decide) (by decide) (by decide)

/-- Claim C8: every per-endpoint request function of the in-src request
modules (webhooks, users, stickers) performs exactly one call to the
shared request operation (`get_current_user` via its delegation to
`get_user("@me")`); `execute_webhook` posts to
`/webhooks/{webhook_id}/{webhook_token}` with `data` equal to the
payload, `wait` mapped to `"true"`/`"false"` by the boolean, and
`thread_id` present in the query params exactly when it is not `None`. -/
theorem request_functions_single_call_shape (wid wtok cid gid nm avatar : PyVal)
    (payload : List (String × PyVal)) (wait : Bool) (tid mid : PyVal)
    (uid rid tok nick sid reason : PyVal) :
    (∃ c ps, execute_webhook wid wtok payload wait tid = [c]
      ∧ c.route.method = "POST"
      ∧ c.route.path = "/webhooks/" ++ pyStr wid ++ "/" ++ pyStr wtok
      ∧ c.data = some payload
      ∧ c.params = some ps
      ∧ List.lookup "wait" ps = some (PyVal.str (if wait then "true" else "false"))
      ∧ List.lookup "thread_id" ps = (if tid = PyVal.none then Option.none else some tid))
    ∧ (create_webhook cid nm avatar).length = 1
    ∧ (get_channel_webhooks cid).length = 1
    ∧ (get_guild_webhooks gid).length = 1
    ∧ (get_webhook wid wtok).length = 1
    ∧ (modify_webhook wid nm avatar cid wtok).length = 1
    ∧ (delete_webhook wid wtok).length = 1
    ∧ (execute_webhook wid wtok payload wait tid).length = 1
    ∧ (get_webhook_message wid wtok mid).length = 1
    ∧ (edit_webhook_message wid wtok mid payload).length = 1
    ∧ (delete_webhook_message wid wtok mid).length = 1
    ∧ get_current_user = get_user (PyVal.str "@me")
    ∧ get_current_user.length = 1
    ∧ (get_user uid).length = 1
    ∧ (modify_client_user payload).length = 1
    ∧ get_user_guilds.length = 1
    ∧ (leave_guild gid).length = 1
    ∧ (create_dm rid).length = 1
    ∧ (create_group_dm payload).length = 1
    ∧ get_user_connections.length = 1
    ∧ (group_dm_add_recipient cid uid tok nick).length = 1
    ∧ (group_dm_remove_recipient cid uid).length = 1
    ∧ (modify_current_user_nick gid nick).length = 1
    ∧ (get_sticker sid).length = 1
    ∧ list_nitro_sticker_packs.length = 1
    ∧ (list_guild_stickers gid).length = 1
    ∧ (get_guild_sticker gid sid).length = 1
    ∧ (create_guild_sticker payload gid reason).length = 1
    ∧ (modify_guild_sticker payload gid sid reason).length = 1
    ∧ (delete_guild_sticker gid sid reason).length = 1 := by
  refine ⟨⟨_, _, rfl, rfl, rfl, rfl, rfl, ?_, ?_⟩,
    rfl, rfl, rfl, rfl, rfl, rfl, rfl, rfl, rfl, rfl,
    rfl, rfl, rfl, rfl, rfl, rfl, rfl, rfl, rfl, rfl, rfl, rfl,
    rfl, rfl, rfl, rfl, rfl, rfl, rfl⟩
  · simp [dict_filter_none, List.lookup]
  · by_cases htid : tid = PyVal.none <;> simp [dict_filter_none, htid, List.lookup]

/-- Claim C9, counterexample: with the discovered id set to the empty
string — which differs from the provisional key — the effective key, and
hence the hash, does not change, because `rl_bucket` tests truthiness. -/
theorem empty_discovered_bucket_keeps_hash :
    "" ≠ (Route.make "GET" "/gateway" []).rl_bucket
      ∧ ((Route.make "GET" "/gateway" []).setKnownBucket "").rl_bucket
          = (Route.make "GET" "/gateway" []).rl_bucket
      ∧ pyHashRoute (fun s => s) ((Route.make "GET" "/gateway" []).setKnownBucket "")
          = pyHashRoute (fun s => s) (Route.make "GET" "/gateway" []) := by
  decide

/-- Claim C9 (amended): assigning a non-empty discovered bucket id that
differs from the provisional key changes the effective key, hence any
injective hash of it, so an entry stored in a key-indexed map under the
provisional key is no longer found under the post-discovery key. -/
theorem discovery_changes_bucket_key_and_hash {α : Type} (r : Route) (b : String) (h : String → α)
    (hb : b ≠ "") (hdiff : b ≠ r.rl_bucket) (hinj : Function.Injective h) :
    (r.setKnownBucket b).rl_bucket = b
      ∧ pyHashRoute h (r.setKnownBucket b) ≠ pyHashRoute h r
      ∧ List.lookup (r.setKnownBucket b).rl_bucket [(r.rl_bucket, r)] = Option.none := by
  have hk : (r.setKnownBucket b).rl_bucket = b := by
    simp [Route.setKnownBucket, Route.rl_bucket, optStrTruthy, hb]
  refine ⟨hk, ?_, ?_⟩
  · simp only [pyHashRoute, hk]
    intro hcontra
    exact hdiff (hinj hcontra)
  · have hne : (b == r.rl_bucket) = false := beq_eq_false_iff_ne.mpr hdiff
    simp [List.lookup, hk, hne]

/-- Witness for C9's amended theorem at a concrete route and discovered
id. -/
theorem discovery_changes_bucket_key_instance :
    ((Route.make "GET" "/gateway" []).setKnownBucket "X").rl_bucket = "X"
      ∧ pyHashRoute (fun s => s) ((Route.make "GET" "/gateway" []).setKnownBucket "X")
          ≠ pyHashRoute (fun s => s) (Route.make "GET" "/gateway" [])
      ∧ List.lookup ((Route.make "GET" "/gateway" []).setKnownBucket "X").rl_bucket
          [((Route.make "GET" "/gateway" []).rl_bucket, Route.make "GET" "/gateway" [])]
          = Option.none :=
  discovery_changes_bucket_key_and_hash (Route.make "GET" "/gateway" []) "X" (fun s => s)
    (by decide) (by decide) (fun _ _ hab => hab)

/-- Claim C10: `rl_bucket` tests truthiness, not presence — an empty
discovered bucket id is treated as unset (the provisional key is still
returned), and an empty webhook token selects the non-webhook key
form. -/
theorem rl_bucket_tests_truthiness (m p : String) (ps : List (String × PyVal)) (r : Route)
    (htok : r.webhook_token = PyVal.str "") (hkb : r.known_bucket = Option.none) :
    ((Route.make m p ps).setKnownBucket "").rl_bucket = (Route.make m p ps).rl_bucket
      ∧ r.rl_bucket = pyStr r.channel_id ++ ":" ++ pyStr r.guild_id ++ ":" ++ r.endpoint := by
  constructor
  · simp [Route.setKnownBucket, Route.make, Route.rl_bucket, Route.endpoint, optStrTruthy]
  · simp [Route.rl_bucket, optStrTruthy, hkb, htok, PyVal.truthy]

/-- Witness for C10 at a concrete route carrying an empty webhook
token. -/
theorem rl_bucket_tests_truthiness_instance :
    ((Route.make "GET" "/gateway" []).setKnownBucket "").rl_bucket
        = (Route.make "GET" "/gateway" []).rl_bucket
      ∧ (Route.make "GET" "/g2" [("webhook_token", PyVal.str "")]).rl_bucket
          = pyStr (Route.make "GET" "/g2" [("webhook_token", PyVal.str "")]).channel_id ++ ":"
            ++ pyStr (Route.make "GET" "/g2" [("webhook_token", PyVal.str "")]).guild_id ++ ":"
            ++ (Route.make "GET" "/g2" [("webhook_token", PyVal.str "")]).endpoint :=
  rl_bucket_tests_truthiness "GET" "/gateway" []
    (Route.make "GET" "/g2" [("webhook_token", PyVal.str "")]) (by decide) rfl

end DisSnek
